import Mathlib

/-!
Verification of the vss-event booking/payment core.

Shallow embedding of the payment router (`src/server/api/routers/wordpress.ts`,
eventPaymentRouter) and the public capacity read model (`publicRouter`,
`busesWithPaidPassengers`). The database is modelled as explicit lists; Prisma
`findFirst` is `List.find?`, `findMany ... where` is `List.filter`, row creation
is list append (auto-increment order = list order). Timestamps are epoch
milliseconds (`Int`); date-fns helpers are arithmetic on them:
`subDays d 2 = d - 2*86400000`, `isWithinInterval` is inclusive on both ends,
`isBefore a b = a < b`.
-/

namespace VssEvent

/-- Prisma enum `SwishPaymentStatus`. -/
inductive SwishPaymentStatus where
  | CREATED
  | PAID
  | DECLINED
  | ERROR
  | CANCELLED
deriving DecidableEq, Repr

/-- Prisma enum `SwishRefundStatus`. -/
inductive SwishRefundStatus where
  | CREATED
  | PAID
  | DECLINED
  | ERROR
deriving DecidableEq, Repr

/-- Prisma model `VastraEvent`: an event with departure timestamp and four price tiers. -/
structure VastraEvent where
  id : String
  name : String
  date : Int
  defaultPrice : Int
  memberPrice : Int
  youthPrice : Int
  youthMemberPrice : Int
deriving DecidableEq, Repr

/-- Prisma model `Bus`: belongs to one event, has a seat capacity. -/
structure Bus where
  id : String
  eventId : String
  seats : Int
deriving DecidableEq, Repr

/-- Prisma model `Participant`. `payAmount` is a JS number; the source guard
`!payAmount` is falsy exactly when the amount is 0 (given it is set). -/
structure Participant where
  id : String
  name : String
  email : String
  phone : String
  note : Option String
  busId : String
  member : Bool
  youth : Bool
  payAmount : Int
  cancellationToken : String
  eventId : String
deriving DecidableEq, Repr

/-- Prisma model `SwishPayment`. `id` is the database row id, `paymentId` the
gateway-assigned payment id; `participantIds` models the many-to-many
`participants` relation. -/
structure SwishPayment where
  id : String
  paymentId : String
  payerAlias : String
  payeeAlias : String
  amount : Int
  message : String
  paymentReference : Option String
  paymentRequestUrl : String
  createdAt : Int
  updatedAt : Int
  status : SwishPaymentStatus
  errorCode : Option String
  errorMessage : Option String
  participantIds : List String
deriving DecidableEq, Repr

/-- Prisma model `SwishRefund`. `paymentRowId` is the source's `paymentId`
foreign key to `SwishPayment.id` (renamed to avoid clashing with the
gateway payment id); `refundId` is the gateway-assigned refund id. -/
structure SwishRefund where
  id : String
  refundId : String
  paymentRowId : String
  paymentReference : Option String
  payerAlias : String
  payeeAlias : String
  amount : Int
  message : String
  status : SwishRefundStatus
  participantId : String
  createdAt : Int
deriving DecidableEq, Repr

/-- The relational store: rows in creation (auto-increment) order. -/
structure DB where
  events : List VastraEvent
  buses : List Bus
  participants : List Participant
  payments : List SwishPayment
  refunds : List SwishRefund
deriving DecidableEq, Repr

/-- tRPC errors raised by the handlers. -/
inductive TrpcErr where
  | badRequest (message : String)
  | notFound (message : String)
  | internalServerError
deriving DecidableEq, Repr

def msPerHour : Int := 3600000

def msPerDay : Int := 86400000

/-- date-fns `subDays(date, n)` on epoch-ms timestamps. -/
def subDays (date : Int) (n : Int) : Int := date - n * msPerDay

/-- date-fns `subHours(date, n)` on epoch-ms timestamps. -/
def subHours (date : Int) (n : Int) : Int := date - n * msPerHour

/-- date-fns `isWithinInterval(t, {start, end})`: inclusive on both endpoints. -/
def isWithinInterval (t lo hi : Int) : Bool := decide (lo ≤ t) && decide (t ≤ hi)

/-- date-fns `isBefore(a, b)`: strict comparison. -/
def isBefore (a b : Int) : Bool := decide (a < b)

/-- The last path segment of a URL: `url.split("/").pop()`. -/
def lastUrlSegment (url : String) : String := ((url.splitOn "/").getLast?).getD ""

/-- The `participantSchema` input after stripping `consent` (which zod forces to `true`). -/
structure ParticipantInput where
  name : String
  email : String
  phone : String
  note : Option String
  busId : String
  member : Bool
  youth : Bool
deriving DecidableEq, Repr

/-- Function `getParticipantCost` from the payment router: the four-way price-tier lookup. -/
def getParticipantCost (participant : ParticipantInput) (event : VastraEvent) : Int :=
  if participant.youth && participant.member then
    event.youthMemberPrice
  else if participant.youth && !participant.member then
    event.youthPrice
  else if !participant.youth && participant.member then
    event.memberPrice
  else
    event.defaultPrice

/-- Function `calculateCost`: total over the participant list, as the source's `reduce`. -/
def calculateCost (participants : List ParticipantInput) (event : VastraEvent) : Int :=
  participants.foldl (fun acc participant => acc + getParticipantCost participant event) 0

/-- The relation `participant.swishPayments` (many-to-many), in row order. -/
def swishPaymentsOf (db : DB) (p : Participant) : List SwishPayment :=
  db.payments.filter (fun sp => sp.participantIds.contains p.id)

/-- The relation `participant.swishRefunds`, in row order. -/
def swishRefundsOf (db : DB) (p : Participant) : List SwishRefund :=
  db.refunds.filter (fun r => r.participantId == p.id)

/-- The payee alias taken from configuration by `createPaymentIntentPayload`
(utility outside the router; its value is environment-supplied). -/
def swishPayeeAlias : String := "1231181189"

/-- The payer-facing message built by `requestSwishPayment`:
a template string sliced to 50 characters with `/` replaced by `-`. -/
def mkMessage (event : VastraEvent) (n : Nat) : String :=
  ((event.name ++ ". " ++ toString n ++ " resenärer").take 50).replace "/" "-"

/-- The participant rows created inside the `$transaction` of
`requestSwishPayment`: each input row plus the computed `payAmount`, the
event id, and database-generated id and cancellation token (supplied here as
the `meta` list of (id, token) pairs). -/
def createParticipantRows (inputs : List ParticipantInput)
    (meta : List (String × String)) (event : VastraEvent) : List Participant :=
  (inputs.zip meta).map (fun im =>
    { id := im.2.1, name := im.1.name, email := im.1.email, phone := im.1.phone,
      note := im.1.note, busId := im.1.busId, member := im.1.member,
      youth := im.1.youth, payAmount := getParticipantCost im.1 event,
      cancellationToken := im.2.2, eventId := event.id })

/-- Handler `requestSwishPayment` (Booking Orchestrator).

Environment interactions are explicit parameters: `meta` supplies the
database-generated (id, cancellationToken) pairs for the new participant rows;
`failAt = some k` with `k < inputs.length` injects a failure into the k-th
participant create inside the Prisma `$transaction` (whose documented semantics
are all-or-nothing: on any failure no row of the transaction commits);
`gatewayLocation` is the `location` header returned by `createPaymentRequest`
(`none` = the outbound gateway call fails); `paymentRowId` is the database id
of the new `SwishPayment` row; `now` is the current time. The `try/catch` in
the source wraps the transaction, the gateway call and the payment-row create,
and maps any failure to `INTERNAL_SERVER_ERROR`; a gateway failure after the
transaction has committed leaves the participant rows in place. Returns the
(possibly updated) database and the tRPC result. -/
def requestSwishPayment (db : DB) (eventId : String) (inputs : List ParticipantInput)
    (meta : List (String × String)) (failAt : Option Nat)
    (gatewayLocation : Option String) (paymentRowId : String) (now : Int) :
    DB × Except TrpcErr String :=
  match db.events.find? (fun e => e.id == eventId) with
  | none => (db, .error (.badRequest "Event not found"))
  | some event =>
    let cost := calculateCost inputs event
    match inputs.head? with
    | none => (db, .error (.badRequest "Empty participants"))
    | some payer =>
      let message := mkMessage event inputs.length
      let txFails := match failAt with
        | some k => decide (k < inputs.length)
        | none => false
      if txFails then
        (db, .error .internalServerError)
      else
        let newParticipants := createParticipantRows inputs meta event
        let db1 := { db with participants := db.participants ++ newParticipants }
        match gatewayLocation with
        | none => (db1, .error .internalServerError)
        | some paymentRequestUrl =>
          let paymentRequestId := lastUrlSegment paymentRequestUrl
          let paymentIntent : SwishPayment :=
            { id := paymentRowId, paymentId := paymentRequestId,
              payerAlias := payer.phone, payeeAlias := swishPayeeAlias,
              amount := cost, message := message, paymentReference := none,
              paymentRequestUrl := paymentRequestUrl, createdAt := now,
              updatedAt := now, status := .CREATED, errorCode := none,
              errorMessage := none,
              participantIds := newParticipants.map (fun p => p.id) }
          let db2 := { db1 with payments := db1.payments ++ [paymentIntent] }
          (db2, .ok paymentIntent.paymentId)

/-- Handler `cancelBooking` (Cancellation Workflow / `requestCancellation`).

`gatewayLocation` is the `location` header returned by `createRefundRequest`
(`none` = gateway failure); `refundRowId` the database id of the new
`SwishRefund` row; `now` the current time. The event relation is required in
the schema; were it missing, the source would throw a TypeError reading
`participant.event.date` before its own null check, surfacing as an internal
error, which is how the `none` branch is modelled. -/
def cancelBooking (db : DB) (now : Int) (token : String)
    (gatewayLocation : Option String) (refundRowId : String) :
    DB × Except TrpcErr String :=
  match db.participants.find? (fun p => p.cancellationToken == token) with
  | none => (db, .error (.badRequest "Participant not found"))
  | some participant =>
    match db.events.find? (fun e => e.id == participant.eventId) with
    | none => (db, .error .internalServerError)
    | some event =>
      let twoDaysBeforeDeparture := subDays event.date 2
      let isWithin48Hours := isWithinInterval now twoDaysBeforeDeparture event.date
      if isWithin48Hours then
        (db, .error (.badRequest "Du kan inte avboka inom 48h"))
      else
        let swishPayment? := (swishPaymentsOf db participant).find?
          (fun p => p.status == SwishPaymentStatus.PAID)
        match swishPayment? with
        | none => (db, .error (.badRequest "Payment not found"))
        | some swishPayment =>
          if participant.payAmount == 0 then
            (db, .error (.badRequest "Payment not found"))
          else
            match gatewayLocation with
            | none => (db, .error .internalServerError)
            | some refundRequestUrl =>
              let refundRequestId := lastUrlSegment refundRequestUrl
              let eventNameShort := ((event.name.replace "/" "-").splitOn " ").headD ""
              let message := "Återbetalning: " ++ eventNameShort ++ ", " ++ participant.name
              let refundIntent : SwishRefund :=
                { id := refundRowId, refundId := refundRequestId,
                  paymentRowId := swishPayment.id,
                  paymentReference := swishPayment.paymentReference,
                  payerAlias := "1234679304",
                  payeeAlias := swishPayment.payerAlias,
                  amount := participant.payAmount,
                  message := message, status := SwishRefundStatus.CREATED,
                  participantId := participant.id, createdAt := now }
              ({ db with refunds := db.refunds ++ [refundIntent] },
                .ok refundIntent.refundId)

/-- The `swishCallbackPaymentSchema` payload (dates already parsed to epoch ms). -/
structure CallbackInput where
  id : String
  payeePaymentReference : String
  paymentReference : String
  callbackUrl : String
  payerAlias : String
  payeeAlias : String
  currency : String
  message : String
  errorMessage : Option String
  status : SwishPaymentStatus
  amount : Int
  dateCreated : Int
  datePaid : Option Int
  errorCode : Option String
deriving DecidableEq, Repr

/-- Result of one `swishPaymentCallback` invocation: the database afterwards,
the tRPC response, and the participant ids for which a confirmation-email send
was attempted during this invocation. -/
structure CallbackOutcome where
  db : DB
  response : Except TrpcErr Nat
  emailed : List String
deriving Repr

/-- The `SwishPayment` row created by `swishPaymentCallback`: it carries the
callback's status and identifiers, and copies the original row's
`paymentRequestUrl` and participant linkage. -/
def appendedPaymentRow (input : CallbackInput) (now : Int) (newRowId : String)
    (originalPayment : SwishPayment) : SwishPayment :=
  { id := newRowId, paymentId := input.id, payerAlias := input.payerAlias,
    payeeAlias := input.payeeAlias, amount := input.amount,
    message := input.message,
    paymentReference := some input.paymentReference,
    paymentRequestUrl := originalPayment.paymentRequestUrl,
    createdAt := input.dateCreated, updatedAt := now,
    status := input.status, errorCode := input.errorCode,
    errorMessage := input.errorMessage,
    participantIds := originalPayment.participantIds }

/-- Handler `swishPaymentCallback` (Callback Processor).

`newRowId` is the database id of the appended `SwishPayment` row; `now` the
processing time; `emailSendFails = true` makes every confirmation-email send
reject — the source catches that rejection, logs it, and still returns
`{status: 200}` (which is why the parameter does not influence the result).
`emailed` records the sends attempted: when the new row's status is PAID, one
send per linked participant (`Promise.all` over the participant list). -/
def swishPaymentCallback (db : DB) (input : CallbackInput) (now : Int)
    (newRowId : String) (emailSendFails : Bool) : CallbackOutcome :=
  match db.payments.find? (fun p => p.paymentId == input.id) with
  | none => { db := db, response := .error (.badRequest "Payment not found"), emailed := [] }
  | some originalPayment =>
    let newPayment := appendedPaymentRow input now newRowId originalPayment
    let db1 := { db with payments := db.payments ++ [newPayment] }
    let emailed := if newPayment.status == SwishPaymentStatus.PAID then
        newPayment.participantIds
      else
        []
    { db := db1, response := .ok 200, emailed := emailed }

/-- Modelled from the spec: the current status among a list of payment rows is
the status of the most recently created (last, in auto-increment order) row
with the given gateway payment id. -/
def currentStatusRows (rows : List SwishPayment) (paymentId : String) :
    Option SwishPaymentStatus :=
  ((rows.filter (fun p => p.paymentId == paymentId)).getLast?).map
    (fun p => p.status)

/-- Modelled from the spec: the current status for a gateway payment id is the
status of its most recently created `SwishPayment` row (the status-reading
utility `checkPaymentStatus` lives in `~/server/utils/payment`, which is not
among the provided sources). -/
def currentStatus (db : DB) (paymentId : String) : Option SwishPaymentStatus :=
  currentStatusRows db.payments paymentId

/-- The `participant` payload returned by `getCancellableParticipant`.
`departureTime` keeps the raw event timestamp; the source renders it with
`format(date, "hh:mm")`, a locale/timezone presentation step. -/
structure CancellableInfo where
  name : String
  email : String
  cancellationToken : String
  eventName : String
  payAmount : Int
  departureTime : Int
  note : Option String
  paymentId : String
deriving DecidableEq, Repr

/-- Full result of `getCancellableParticipant`. -/
structure CancellableResult where
  participant : CancellableInfo
  hasCancelled : Bool
  cancellationDisabled : Bool
deriving DecidableEq, Repr

/-- The success payload built by `getCancellableParticipant`. -/
def cancellableView (db : DB) (now : Int) (participant : Participant)
    (payment : SwishPayment) (event : VastraEvent) : CancellableResult :=
  { participant :=
      { name := participant.name, email := participant.email,
        cancellationToken := participant.cancellationToken,
        eventName := event.name, payAmount := participant.payAmount,
        departureTime := event.date, note := participant.note,
        paymentId := payment.paymentId },
    hasCancelled := (swishRefundsOf db participant).any
      (fun x => x.status == SwishRefundStatus.PAID),
    cancellationDisabled := !(isBefore now (subDays event.date 2)) }

/-- Handler `getCancellableParticipant` (read model for the cancellation page).
A query: it only reads the database, so it returns no updated `DB`. The event
relation is required; its absence would be a TypeError in the source
(internal error), as in `cancelBooking`. -/
def getCancellableParticipant (db : DB) (now : Int) (token : String) :
    Except TrpcErr CancellableResult :=
  match db.participants.find? (fun p => p.cancellationToken == token) with
  | none => .error (.badRequest "Participant not found")
  | some participant =>
    match (swishPaymentsOf db participant).find?
        (fun x => x.status == SwishPaymentStatus.PAID) with
    | none => .error (.badRequest "Payment not found")
    | some payment =>
      match db.events.find? (fun e => e.id == participant.eventId) with
      | none => .error .internalServerError
      | some event =>
        if isBefore event.date now then
          .error (.badRequest "Can't cancel within 48 hours of departure")
        else
          .ok (cancellableView db now participant payment event)

/-- Filter `busesWithPaidPassengers`, payment half: the participant
has SOME swish payment with status PAID. -/
def hasPaidPayment (db : DB) (p : Participant) : Bool :=
  (swishPaymentsOf db p).any (fun sp => sp.status == SwishPaymentStatus.PAID)

/-- Filter `busesWithPaidPassengers`, refund half: the participant
has NO swish refund with status PAID (`swishRefunds: { none: ... }`). -/
def hasPaidRefund (db : DB) (p : Participant) : Bool :=
  (swishRefundsOf db p).any (fun r => r.status == SwishRefundStatus.PAID)

/-- The passengers of a bus counted by `busesWithPaidPassengers`:
`_count.passengers` with the where-filter above. -/
def paidPassengers (db : DB) (b : Bus) : List Participant :=
  db.participants.filter
    (fun p => p.busId == b.id && (hasPaidPayment db p && !hasPaidRefund db p))

/-- The per-bus `_count.passengers` value of the capacity read model. -/
def paidPassengerCount (db : DB) (b : Bus) : Nat := (paidPassengers db b).length

/-- The buses of an event, in row order. -/
def eventBuses (db : DB) (e : VastraEvent) : List Bus :=
  db.buses.filter (fun b => b.eventId == e.id)

/-- One entry of the `getAwayGames` result: the event together with the
`maxSeats` and `bookedSeats` sums over its buses. -/
structure EventWithCounts where
  event : VastraEvent
  maxSeats : Int
  bookedSeats : Nat
deriving DecidableEq, Repr

/-- Handler `getAwayGames` (public capacity read model): events departing no earlier
than eight hours ago, each with `maxSeats = Σ bus.seats` and
`bookedSeats = Σ bus._count.passengers` under the paid-passenger filter. -/
def getAwayGames (db : DB) (now : Int) : List EventWithCounts :=
  (db.events.filter (fun e => decide (subHours now 8 ≤ e.date))).map (fun event =>
    { event := event,
      maxSeats := (eventBuses db event).foldl (fun acc b => acc + b.seats) 0,
      bookedSeats := (eventBuses db event).foldl
        (fun acc b => acc + paidPassengerCount db b) 0 })

/-- Handler `getAwayGame` (by id): the event with its buses and their paid-passenger
counts, or NOT_FOUND. -/
def getAwayGame (db : DB) (id : String) : Except TrpcErr (VastraEvent × List (Bus × Nat)) :=
  match db.events.find? (fun e => e.id == id) with
  | none => .error (.notFound "")
  | some e => .ok (e, (eventBuses db e).map (fun b => (b, paidPassengerCount db b)))

/-- The spec's counting predicate for C2, written from the spec's words for
comparison with the source filter: the participant's MOST-RECENT payment row
has status PAID and its most-recent refund row (if any) is not PAID. -/
def specCountsPassenger (db : DB) (p : Participant) : Bool :=
  (((swishPaymentsOf db p).getLast?).map (fun sp => sp.status)
      == some SwishPaymentStatus.PAID) &&
  !(((swishRefundsOf db p).getLast?).map (fun r => r.status)
      == some SwishRefundStatus.PAID)

/-! Concrete fixtures used by counterexamples and witnesses. -/

/-- A departure timestamp used by the cancellation fixtures. -/
def evT : Int := 1000000000000

/-- A fixture event with distinct price tiers. -/
def fixEvent : VastraEvent :=
  { id := "ev1", name := "AIK borta", date := evT, defaultPrice := 100,
    memberPrice := 80, youthPrice := 60, youthMemberPrice := 40 }

/-- A fixture participant with a nonzero pay amount. -/
def fixParticipant : Participant :=
  { id := "pt1", name := "Kim", email := "kim@x.se", phone := "0700000000",
    note := none, busId := "bus1", member := true, youth := false,
    payAmount := 80, cancellationToken := "tok1", eventId := "ev1" }

/-- A PAID payment row linked to `fixParticipant`. -/
def fixPaidPayment : SwishPayment :=
  { id := "sp1", paymentId := "PAY1", payerAlias := "0700000000",
    payeeAlias := swishPayeeAlias, amount := 80, message := "m",
    paymentReference := none, paymentRequestUrl := "api/paymentrequests/PAY1",
    createdAt := 0, updatedAt := 0, status := SwishPaymentStatus.PAID,
    errorCode := none, errorMessage := none, participantIds := ["pt1"] }

/-- Fixture database: one event, one participant holding a PAID payment. -/
def fixDb : DB :=
  { events := [fixEvent], buses := [], participants := [fixParticipant],
    payments := [fixPaidPayment], refunds := [] }

/-- A fixture participant whose stored pay amount is zero. -/
def fixZeroParticipant : Participant :=
  { id := "pt2", name := "Alex", email := "alex@x.se", phone := "0700000001",
    note := none, busId := "bus1", member := false, youth := false,
    payAmount := 0, cancellationToken := "tok2", eventId := "ev1" }

/-- A PAID payment row linked to the zero-amount participant. -/
def fixZeroPayment : SwishPayment :=
  { id := "sp2", paymentId := "PAY2", payerAlias := "0700000001",
    payeeAlias := swishPayeeAlias, amount := 0, message := "m",
    paymentReference := none, paymentRequestUrl := "api/paymentrequests/PAY2",
    createdAt := 0, updatedAt := 0, status := SwishPaymentStatus.PAID,
    errorCode := none, errorMessage := none, participantIds := ["pt2"] }

/-- Fixture database for the zero-pay-amount case. -/
def fixZeroDb : DB :=
  { events := [fixEvent], buses := [], participants := [fixZeroParticipant],
    payments := [fixZeroPayment], refunds := [] }

/-- Capacity counterexample participant. -/
def c2Participant : Participant :=
  { id := "q1", name := "Q", email := "q@x.se", phone := "0700000002",
    note := none, busId := "busX", member := false, youth := false,
    payAmount := 100, cancellationToken := "tq", eventId := "evX" }

/-- First payment row for `c2Participant`: PAID. -/
def c2PayPaid : SwishPayment :=
  { id := "sq1", paymentId := "PX", payerAlias := "0700000002",
    payeeAlias := swishPayeeAlias, amount := 100, message := "m",
    paymentReference := none, paymentRequestUrl := "api/paymentrequests/PX",
    createdAt := 0, updatedAt := 0, status := SwishPaymentStatus.PAID,
    errorCode := none, errorMessage := none, participantIds := ["q1"] }

/-- Later payment row for `c2Participant` (same gateway id): DECLINED, so
the participant's most-recent payment row is not PAID. -/
def c2PayDeclined : SwishPayment :=
  { id := "sq2", paymentId := "PX", payerAlias := "0700000002",
    payeeAlias := swishPayeeAlias, amount := 100, message := "m",
    paymentReference := none, paymentRequestUrl := "api/paymentrequests/PX",
    createdAt := 1, updatedAt := 1, status := SwishPaymentStatus.DECLINED,
    errorCode := none, errorMessage := none, participantIds := ["q1"] }

/-- Capacity counterexample bus. -/
def c2Bus : Bus := { id := "busX", eventId := "evX", seats := 10 }

/-- Capacity counterexample database: payment history [PAID, DECLINED]. -/
def c2Db : DB :=
  { events := [], buses := [c2Bus], participants := [c2Participant],
    payments := [c2PayPaid, c2PayDeclined], refunds := [] }

/-- Scenario event for the 7-of-10 capacity example. -/
def scnEvent : VastraEvent :=
  { id := "ev", name := "Resa", date := 0, defaultPrice := 100,
    memberPrice := 80, youthPrice := 60, youthMemberPrice := 40 }

/-- Scenario bus with capacity 10. -/
def scnBus : Bus := { id := "b1", eventId := "ev", seats := 10 }

/-- Scenario participant generator. -/
def scnP (i : String) : Participant :=
  { id := i, name := i, email := "e@x.se", phone := "07", note := none,
    busId := "b1", member := false, youth := false, payAmount := 100,
    cancellationToken := i, eventId := "ev" }

/-- Scenario PAID payment row for participant `i`. -/
def scnPay (i : String) : SwishPayment :=
  { id := "pay" ++ i, paymentId := "P" ++ i, payerAlias := "07",
    payeeAlias := swishPayeeAlias, amount := 100, message := "m",
    paymentReference := none, paymentRequestUrl := "u",
    createdAt := 0, updatedAt := 0, status := SwishPaymentStatus.PAID,
    errorCode := none, errorMessage := none, participantIds := [i] }

/-- Scenario PAID refund row for participant `i`. -/
def scnRefund (i : String) : SwishRefund :=
  { id := "r" ++ i, refundId := "R" ++ i, paymentRowId := "pay" ++ i,
    paymentReference := none, payerAlias := "1234679304", payeeAlias := "07",
    amount := 100, message := "m", status := SwishRefundStatus.PAID,
    participantId := i, createdAt := 0 }

/-- Scenario participant ids: 7 merely paid, plus p8 and p9 paid-then-refunded. -/
def scnIds : List String := ["p1", "p2", "p3", "p4", "p5", "p6", "p7", "p8", "p9"]

/-- Scenario database: capacity 10, 7 PAID participants, 2 PAID-then-refunded. -/
def scnDb : DB :=
  { events := [scnEvent], buses := [scnBus],
    participants := scnIds.map scnP,
    payments := scnIds.map scnPay,
    refunds := [scnRefund "p8", scnRefund "p9"] }

/-- First signup input used by the orchestrator witnesses. -/
def wInputA : ParticipantInput :=
  { name := "A", email := "a@x.se", phone := "0700000003", note := none,
    busId := "bus1", member := false, youth := false }

/-- Second signup input used by the orchestrator witnesses. -/
def wInputB : ParticipantInput :=
  { name := "B", email := "b@x.se", phone := "0700000004", note := none,
    busId := "bus1", member := true, youth := true }

/-- Two signup inputs used by the orchestrator witnesses. -/
def wInputs : List ParticipantInput := [wInputA, wInputB]

/-- Database-generated (id, token) pairs for the two signup inputs. -/
def wMeta : List (String × String) := [("idA", "tkA"), ("idB", "tkB")]

/-- Empty store holding only the fixture event, for the orchestrator witnesses. -/
def emptyDbWithEvent : DB :=
  { events := [fixEvent], buses := [], participants := [], payments := [],
    refunds := [] }

/-- Callback payload for the fixture payment id, reporting PAID. -/
def cbInput : CallbackInput :=
  { id := "PAY1", payeePaymentReference := "ppr", paymentReference := "pr",
    callbackUrl := "cb", payerAlias := "0700000000",
    payeeAlias := swishPayeeAlias, currency := "SEK", message := "m",
    errorMessage := none, status := SwishPaymentStatus.PAID, amount := 80,
    dateCreated := 5, datePaid := some 6, errorCode := none }

/-- C3 first conjunct helper: a sample input with given flags. -/
def flagsInput (member youth : Bool) : ParticipantInput :=
  { name := "n", email := "e", phone := "p", note := none, busId := "b",
    member := member, youth := youth }

/-- C3: the cost lookup is exhaustive over the four (member, youth) combinations:
youth and member gives youthMemberPrice; youth alone gives youthPrice; member
alone gives memberPrice; neither gives defaultPrice; the total charged,
`calculateCost`, is the sum of the per-participant costs; and on every
successful `requestSwishPayment` run the created payment row's amount is that
total. -/
theorem cost_rule_exhaustive_and_total (p : ParticipantInput) (e : VastraEvent)
    (ps : List ParticipantInput) :
    (p.youth = true → p.member = true → getParticipantCost p e = e.youthMemberPrice) ∧
    (p.youth = true → p.member = false → getParticipantCost p e = e.youthPrice) ∧
    (p.youth = false → p.member = true → getParticipantCost p e = e.memberPrice) ∧
    (p.youth = false → p.member = false → getParticipantCost p e = e.defaultPrice) ∧
    calculateCost ps e = (ps.map (fun q => getParticipantCost q e)).sum ∧
    (∀ (db : DB) (eventId : String) (meta : List (String × String))
      (paymentRowId url : String) (now : Int) (payer : ParticipantInput),
      db.events.find? (fun ev => ev.id == eventId) = some e →
      ps.head? = some payer →
      ((requestSwishPayment db eventId ps meta none (some url) paymentRowId
          now).1.payments.getLast?).map (fun sp => sp.amount)
        = some (calculateCost ps e)) := by
  refine ⟨?_, ?_, ?_, ?_, ?_, ?_⟩
  · intro hy hm; simp [getParticipantCost, hy, hm]
  · intro hy hm; simp [getParticipantCost, hy, hm]
  · intro hy hm; simp [getParticipantCost, hy, hm]
  · intro hy hm; simp [getParticipantCost, hy, hm]
  · induction ps with
    | nil => rfl
    | cons q qs ih =>
      simp only [calculateCost, List.foldl_cons, List.map_cons, List.sum_cons] at *
      rw [← ih]
      have h : ∀ (l : List ParticipantInput) (a b : Int),
          l.foldl (fun acc q => acc + getParticipantCost q e) (a + b)
            = b + l.foldl (fun acc q => acc + getParticipantCost q e) a := by
        intro l
        induction l with
        | nil => intro a b; simp [add_comm]
        | cons r rs ihr =>
          intro a b
          simp only [List.foldl_cons]
          rw [add_right_comm, ihr]
      have h0 := h qs 0 (getParticipantCost q e)
      simpa using h0
  · intro db eventId meta paymentRowId url now payer hfind hhead
    simp [requestSwishPayment, hfind, hhead, List.getLast?_concat]

/-- C3 witness: with distinct tier prices 100/80/60/40, the four flag
combinations price to 100, 80, 60, 40, by the theorem above. -/
theorem cost_rule_exhaustive_and_total_witness :
    getParticipantCost (flagsInput false false)
      { id := "e1", name := "Match", date := 0, defaultPrice := 100, memberPrice := 80,
        youthPrice := 60, youthMemberPrice := 40 } = 100 :=
  (cost_rule_exhaustive_and_total (flagsInput false false)
    { id := "e1", name := "Match", date := 0, defaultPrice := 100, memberPrice := 80,
      youthPrice := 60, youthMemberPrice := 40 } []).2.2.2.1 rfl rfl

/-- Helper: `find?` over an extended list still returns the first hit of the
original list. -/
theorem find?_append_of_some {α : Type} {p : α → Bool} {l₁ : List α} {a : α}
    (l₂ : List α) (h : l₁.find? p = some a) : (l₁ ++ l₂).find? p = some a := by
  induction l₁ with
  | nil => simp [List.find?] at h
  | cons x xs ih =>
    rw [List.cons_append]
    by_cases hx : p x
    · rw [List.find?_cons_of_pos _ hx] at h ⊢; exact h
    · rw [List.find?_cons_of_neg _ hx] at h ⊢; exact ih h

/-- Helper: appending a row with the given gateway payment id makes it the
current-status row for that id. -/
theorem currentStatusRows_append_matching (l : List SwishPayment)
    (row : SwishPayment) (pid : String) (h : row.paymentId = pid) :
    currentStatusRows (l ++ [row]) pid = some row.status := by
  simp [currentStatusRows, List.filter_append, h, List.getLast?_concat]

/-- C1 (amended): for a participant holding a PAID payment with a nonzero pay
amount, `cancelBooking` rejects with the too-late error exactly when the
current time lies in the closed interval [departure − 48h, departure]: it
rejects at exactly T−48h and anywhere up to T, accepts at any time strictly
before T−48h (in particular at T−48h−1s), and — contrary to the original
claim's "rejects at any time ≥ T−48h" — also accepts at any time strictly
after departure, because `isWithinInterval` bounds the guard at the departure
timestamp. -/
theorem cancel_window_boundary (db : DB) (token : String) (now : Int)
    (participant : Participant) (event : VastraEvent) (url rid : String)
    (hp : db.participants.find? (fun p => p.cancellationToken == token) = some participant)
    (he : db.events.find? (fun e => e.id == participant.eventId) = some event)
    (hpay : ∃ sp, (swishPaymentsOf db participant).find?
      (fun p => p.status == SwishPaymentStatus.PAID) = some sp)
    (hamt : participant.payAmount ≠ 0) :
    (subDays event.date 2 ≤ now → now ≤ event.date →
      cancelBooking db now token (some url) rid
        = (db, .error (.badRequest "Du kan inte avboka inom 48h"))) ∧
    (now < subDays event.date 2 →
      (cancelBooking db now token (some url) rid).2 = .ok (lastUrlSegment url)) ∧
    (event.date < now →
      (cancelBooking db now token (some url) rid).2 = .ok (lastUrlSegment url)) := by
  obtain ⟨sp, hsp⟩ := hpay
  have hz : (participant.payAmount == 0) = false := by simp [hamt]
  refine ⟨?_, ?_, ?_⟩
  · intro h1 h2
    have hw : isWithinInterval now (subDays event.date 2) event.date = true := by
      simp [isWithinInterval, h1, h2]
    simp [cancelBooking, hp, he, hw]
  · intro h1
    have hw : isWithinInterval now (subDays event.date 2) event.date = false := by
      simp only [isWithinInterval, Bool.and_eq_false_iff, decide_eq_false_iff_not]
      left; omega
    simp [cancelBooking, hp, he, hw, hsp, hz]
  · intro h1
    have hw : isWithinInterval now (subDays event.date 2) event.date = false := by
      simp only [isWithinInterval, Bool.and_eq_false_iff, decide_eq_false_iff_not]
      right; omega
    simp [cancelBooking, hp, he, hw, hsp, hz]

/-- C1 witness: at exactly departure − 48h the fixture cancellation is
rejected with the too-late error. -/
theorem cancel_window_boundary_witness :
    cancelBooking fixDb (subDays evT 2) "tok1" (some "api/refunds/R77") "rf1"
      = (fixDb, .error (.badRequest "Du kan inte avboka inom 48h")) :=
  (cancel_window_boundary fixDb "tok1" (subDays evT 2) fixParticipant fixEvent
    "api/refunds/R77" "rf1" (by rfl) (by rfl) ⟨fixPaidPayment, by rfl⟩ (by decide)).1
    (by decide) (by decide)

/-- C1 counterexample: one second after departure is a time ≥ T−48h, yet the
cancellation succeeds and returns a refund id instead of being rejected, so
the claim's "rejects at any time ≥ T−48h" is false on the code. -/
theorem cancel_after_departure_accepted :
    subDays fixEvent.date 2 ≤ evT + 1000 ∧
    (cancelBooking fixDb (evT + 1000) "tok1" (some "api/refunds/R77") "rf1").2
      = .ok (lastUrlSegment "api/refunds/R77") :=
  ⟨by decide, by rfl⟩

/-- C10: a participant whose stored `payAmount` is 0 is rejected by
`cancelBooking` with the "Payment not found" error even though a PAID payment
exists and the current time is strictly before the 48-hour cutoff: the falsy
guard `!payAmount` conflates a zero amount with a missing PAID payment, so a
zero-cost booking can never be refunded. -/
theorem zero_payAmount_rejected (db : DB) (token : String) (now : Int)
    (participant : Participant) (event : VastraEvent)
    (gatewayLocation : Option String) (rid : String)
    (hp : db.participants.find? (fun p => p.cancellationToken == token) = some participant)
    (he : db.events.find? (fun e => e.id == participant.eventId) = some event)
    (hz : participant.payAmount = 0)
    (hopen : now < subDays event.date 2)
    (hpay : ∃ sp, (swishPaymentsOf db participant).find?
      (fun p => p.status == SwishPaymentStatus.PAID) = some sp) :
    cancelBooking db now token gatewayLocation rid
      = (db, .error (.badRequest "Payment not found")) := by
  obtain ⟨sp, hsp⟩ := hpay
  have hw : isWithinInterval now (subDays event.date 2) event.date = false := by
    simp only [isWithinInterval, Bool.and_eq_false_iff, decide_eq_false_iff_not]
    left; omega
  simp [cancelBooking, hp, he, hw, hsp, hz]

/-- C10 witness: the zero-amount fixture participant, holding a PAID payment
and far outside the 48-hour window, is rejected with "Payment not found". -/
theorem zero_payAmount_rejected_witness :
    cancelBooking fixZeroDb 0 "tok2" (some "api/refunds/R1") "rf2"
      = (fixZeroDb, .error (.badRequest "Payment not found")) :=
  zero_payAmount_rejected fixZeroDb "tok2" 0 fixZeroParticipant fixEvent
    (some "api/refunds/R1") "rf2" (by rfl) (by rfl) (by rfl) (by decide)
    ⟨fixZeroPayment, by rfl⟩

/-- C9 (amended): for a resolvable token whose participant holds a PAID
payment and whose departure is not already past, `getCancellableParticipant`
returns (read-only) the departure time, `hasCancelled` = whether some refund
has status PAID, and `cancellationDisabled` = (current time not before the
48-hour cutoff) OR (departure already past) — the second disjunct being
impossible in the return path, since past-departure requests are instead
rejected with an error (see the counterexample). -/
theorem getCancellable_reports (db : DB) (now : Int) (token : String)
    (participant : Participant) (payment : SwishPayment) (event : VastraEvent)
    (hp : db.participants.find? (fun p => p.cancellationToken == token) = some participant)
    (hpay : (swishPaymentsOf db participant).find?
      (fun x => x.status == SwishPaymentStatus.PAID) = some payment)
    (he : db.events.find? (fun e => e.id == participant.eventId) = some event)
    (hnotpast : ¬ event.date < now) :
    ∃ r, getCancellableParticipant db now token = .ok r ∧
      r.participant.departureTime = event.date ∧
      (r.hasCancelled = true ↔
        ∃ rf ∈ swishRefundsOf db participant, rf.status = SwishRefundStatus.PAID) ∧
      (r.cancellationDisabled = true ↔
        (¬ now < subDays event.date 2 ∨ event.date < now)) := by
  have hb : isBefore event.date now = false := by simp [isBefore, hnotpast]
  refine ⟨cancellableView db now participant payment event, ?_, rfl, ?_, ?_⟩
  · simp [getCancellableParticipant, hp, hpay, he, hb]
  · simp [cancellableView, List.any_eq_true]
  · simp only [cancellableView, isBefore, Bool.not_eq_true', decide_eq_false_iff_not]
    constructor
    · intro h; exact Or.inl h
    · rintro (h | h)
      · exact h
      · exact absurd h hnotpast

/-- C9 witness: the fixture participant, read well before the cutoff, gets a
successful result with the event's departure timestamp, `hasCancelled`
matching its (empty) refund history, and `cancellationDisabled` equal to the
claimed formula. -/
theorem getCancellable_reports_witness :
    ∃ r, getCancellableParticipant fixDb 0 "tok1" = .ok r ∧
      r.participant.departureTime = fixEvent.date ∧
      (r.hasCancelled = true ↔
        ∃ rf ∈ swishRefundsOf fixDb fixParticipant, rf.status = SwishRefundStatus.PAID) ∧
      (r.cancellationDisabled = true ↔
        (¬ (0 : Int) < subDays fixEvent.date 2 ∨ fixEvent.date < 0)) :=
  getCancellable_reports fixDb 0 "tok1" fixParticipant fixPaidPayment fixEvent
    (by rfl) (by rfl) (by rfl) (by decide)

/-- C9 counterexample: for a resolvable token with a PAID payment but a
departure already in the past, `getCancellableParticipant` does not return the
claimed fields at all — it rejects with an error — so the claim's "for every
resolvable cancellation token ... returns ... cancellationDisabled = ... OR
(already past departure)" is false on the code. -/
theorem getCancellable_past_departure_errors :
    fixDb.participants.find? (fun p => p.cancellationToken == "tok1")
        = some fixParticipant ∧
    (swishPaymentsOf fixDb fixParticipant).find?
        (fun x => x.status == SwishPaymentStatus.PAID) = some fixPaidPayment ∧
    getCancellableParticipant fixDb (evT + 5000) "tok1"
      = .error (.badRequest "Can't cancel within 48 hours of departure") :=
  ⟨rfl, rfl, rfl⟩

/-- Helper: the database payments after a successful `swishPaymentCallback`
are the old rows with the appended row at the end. -/
theorem swishPaymentCallback_db_payments (db : DB) (input : CallbackInput)
    (now : Int) (newRowId : String) (emailSendFails : Bool) (op : SwishPayment)
    (hfind : db.payments.find? (fun p => p.paymentId == input.id) = some op) :
    (swishPaymentCallback db input now newRowId emailSendFails).db.payments
      = db.payments ++ [appendedPaymentRow input now newRowId op] := by
  simp [swishPaymentCallback, hfind]

/-- C5: with a known gateway payment id, `swishPaymentCallback` appends exactly
one new `SwishPayment` row — carrying the callback's status, the original
row's participant linkage, and the original `paymentRequestUrl` — leaving
every previously stored row unchanged (they form an unmodified prefix), and
the current status of the payment id afterwards is the status of this most
recently created row. -/
theorem callback_appends_only (db : DB) (input : CallbackInput) (now : Int)
    (newRowId : String) (emailSendFails : Bool) (op : SwishPayment)
    (hfind : db.payments.find? (fun p => p.paymentId == input.id) = some op) :
    (swishPaymentCallback db input now newRowId emailSendFails).db.payments
        = db.payments ++ [appendedPaymentRow input now newRowId op] ∧
    (appendedPaymentRow input now newRowId op).status = input.status ∧
    (appendedPaymentRow input now newRowId op).participantIds = op.participantIds ∧
    (appendedPaymentRow input now newRowId op).paymentRequestUrl
        = op.paymentRequestUrl ∧
    currentStatus (swishPaymentCallback db input now newRowId emailSendFails).db
        input.id = some input.status := by
  have h1 := swishPaymentCallback_db_payments db input now newRowId emailSendFails op hfind
  refine ⟨h1, rfl, rfl, rfl, ?_⟩
  rw [currentStatus, h1,
    currentStatusRows_append_matching db.payments
      (appendedPaymentRow input now newRowId op) input.id rfl]
  rfl

/-- C5 witness: the fixture callback appends its row after the existing one
and the current status becomes the callback's status. -/
theorem callback_appends_only_witness :
    (swishPaymentCallback fixDb cbInput 10 "row2" true).db.payments
        = fixDb.payments ++ [appendedPaymentRow cbInput 10 "row2" fixPaidPayment] ∧
    (appendedPaymentRow cbInput 10 "row2" fixPaidPayment).status = cbInput.status ∧
    (appendedPaymentRow cbInput 10 "row2" fixPaidPayment).participantIds
        = fixPaidPayment.participantIds ∧
    (appendedPaymentRow cbInput 10 "row2" fixPaidPayment).paymentRequestUrl
        = fixPaidPayment.paymentRequestUrl ∧
    currentStatus (swishPaymentCallback fixDb cbInput 10 "row2" true).db
        cbInput.id = some cbInput.status :=
  callback_appends_only fixDb cbInput 10 "row2" true fixPaidPayment (by rfl)

/-- C6: once persistence succeeds (known payment id), `swishPaymentCallback`
returns the 200 acknowledgment regardless of whether the confirmation-email
sends fail (the `emailSendFails` parameter is universally quantified); when
the persisted status is PAID a send is attempted for every linked participant,
and for any other status no send is attempted. -/
theorem callback_acks_unconditionally (db : DB) (input : CallbackInput) (now : Int)
    (newRowId : String) (emailSendFails : Bool) (op : SwishPayment)
    (hfind : db.payments.find? (fun p => p.paymentId == input.id) = some op) :
    (swishPaymentCallback db input now newRowId emailSendFails).response
        = .ok 200 ∧
    (input.status = SwishPaymentStatus.PAID →
      (swishPaymentCallback db input now newRowId emailSendFails).emailed
        = op.participantIds) ∧
    (input.status ≠ SwishPaymentStatus.PAID →
      (swishPaymentCallback db input now newRowId emailSendFails).emailed = []) := by
  refine ⟨by simp [swishPaymentCallback, hfind], ?_, ?_⟩
  · intro h
    simp [swishPaymentCallback, hfind, appendedPaymentRow, h]
  · intro h
    simp [swishPaymentCallback, hfind, appendedPaymentRow, h]

/-- C6 witness: for the PAID fixture callback with failing email delivery, the
response is still 200 and one send was attempted for the linked participant. -/
theorem callback_acks_unconditionally_witness :
    (swishPaymentCallback fixDb cbInput 10 "row3" true).response = .ok 200 ∧
    (swishPaymentCallback fixDb cbInput 10 "row3" true).emailed = ["pt1"] :=
  ⟨(callback_acks_unconditionally fixDb cbInput 10 "row3" true fixPaidPayment
      (by rfl)).1,
    (callback_acks_unconditionally fixDb cbInput 10 "row3" true fixPaidPayment
      (by rfl)).2.1 rfl⟩

/-- C7: processing the same callback payload twice leaves the same current
status (status of the most recently created row for that gateway payment id)
as processing it once, and a single invocation attempts at most one
confirmation send per linked participant (given the linked participant ids
are pairwise distinct, as database ids are). -/
theorem callback_idempotent (db : DB) (input : CallbackInput) (t1 t2 : Int)
    (id1 id2 : String) (ef1 ef2 : Bool) (op : SwishPayment)
    (hfind : db.payments.find? (fun p => p.paymentId == input.id) = some op) :
    currentStatus (swishPaymentCallback
        (swishPaymentCallback db input t1 id1 ef1).db input t2 id2 ef2).db input.id
      = currentStatus (swishPaymentCallback db input t1 id1 ef1).db input.id ∧
    (op.participantIds.Nodup →
      ∀ pid, ((swishPaymentCallback db input t1 id1 ef1).emailed.count pid) ≤ 1) := by
  have h1 := swishPaymentCallback_db_payments db input t1 id1 ef1 op hfind
  have hfind2 : (swishPaymentCallback db input t1 id1 ef1).db.payments.find?
      (fun p => p.paymentId == input.id) = some op := by
    rw [h1]; exact find?_append_of_some _ hfind
  have h2 := swishPaymentCallback_db_payments
    (swishPaymentCallback db input t1 id1 ef1).db input t2 id2 ef2 op hfind2
  constructor
  · rw [currentStatus, currentStatus, h2, h1,
      currentStatusRows_append_matching
        (db.payments ++ [appendedPaymentRow input t1 id1 op])
        (appendedPaymentRow input t2 id2 op) input.id rfl,
      currentStatusRows_append_matching db.payments
        (appendedPaymentRow input t1 id1 op) input.id rfl]
    rfl
  · intro hnd pid
    have he : (swishPaymentCallback db input t1 id1 ef1).emailed
        = if input.status == SwishPaymentStatus.PAID then op.participantIds
          else [] := by
      simp only [swishPaymentCallback, hfind]
      rfl
    rw [he]
    by_cases hs : input.status == SwishPaymentStatus.PAID
    · rw [if_pos hs]
      exact List.nodup_iff_count_le_one.mp hnd pid
    · rw [if_neg hs]
      simp

/-- C7 witness: redelivering the fixture callback leaves the current status
unchanged, and the first invocation attempted at most one send for the linked
participant. -/
theorem callback_idempotent_witness :
    currentStatus (swishPaymentCallback
        (swishPaymentCallback fixDb cbInput 10 "row4" false).db cbInput 11 "row5"
        false).db cbInput.id
      = currentStatus (swishPaymentCallback fixDb cbInput 10 "row4" false).db
          cbInput.id ∧
    ((swishPaymentCallback fixDb cbInput 10 "row4" false).emailed.count "pt1") ≤ 1 :=
  ⟨(callback_idempotent fixDb cbInput 10 11 "row4" "row5" false false
      fixPaidPayment (by rfl)).1,
    (callback_idempotent fixDb cbInput 10 11 "row4" "row5" false false
      fixPaidPayment (by rfl)).2 (by decide) "pt1"⟩

/-- Helper: with as many (id, token) pairs as inputs, the transaction creates
exactly one participant row per input. -/
theorem createParticipantRows_length (inputs : List ParticipantInput)
    (meta : List (String × String)) (event : VastraEvent)
    (h : meta.length = inputs.length) :
    (createParticipantRows inputs meta event).length = inputs.length := by
  simp [createParticipantRows, h]

/-- C4: participant persistence in `requestSwishPayment` is all-or-nothing:
on any run either exactly N = `inputs.length` participant rows were appended
or the participant table is unchanged; and when the injected failure hits any
participant create inside the transaction (`failAt = some k`, `k < N`), the
whole database is returned unchanged — no earlier participant of the request
survives — with an internal error. -/
theorem signup_all_or_nothing (db : DB) (eventId : String)
    (inputs : List ParticipantInput) (meta : List (String × String))
    (failAt : Option Nat) (gatewayLocation : Option String)
    (paymentRowId : String) (now : Int)
    (hmeta : meta.length = inputs.length) :
    ((requestSwishPayment db eventId inputs meta failAt gatewayLocation
        paymentRowId now).1.participants.length
          = db.participants.length + inputs.length ∨
      (requestSwishPayment db eventId inputs meta failAt gatewayLocation
        paymentRowId now).1.participants = db.participants) ∧
    (∀ k event, db.events.find? (fun e => e.id == eventId) = some event →
      failAt = some k → k < inputs.length →
      requestSwishPayment db eventId inputs meta failAt gatewayLocation
        paymentRowId now = (db, .error .internalServerError)) := by
  constructor
  · cases hfind : db.events.find? (fun e => e.id == eventId) with
    | none => right; simp [requestSwishPayment, hfind]
    | some event =>
      cases hhead : inputs.head? with
      | none => right; simp [requestSwishPayment, hfind, hhead]
      | some payer =>
        cases failAt with
        | none =>
          cases gatewayLocation with
          | none =>
            left
            simp [requestSwishPayment, hfind, hhead,
              createParticipantRows_length inputs meta event hmeta]
          | some url =>
            left
            simp [requestSwishPayment, hfind, hhead,
              createParticipantRows_length inputs meta event hmeta]
        | some k =>
          by_cases hk : k < inputs.length
          · right; simp [requestSwishPayment, hfind, hhead, hk]
          · cases gatewayLocation with
            | none =>
              left
              simp [requestSwishPayment, hfind, hhead, hk,
                createParticipantRows_length inputs meta event hmeta]
            | some url =>
              left
              simp [requestSwishPayment, hfind, hhead, hk,
                createParticipantRows_length inputs meta event hmeta]
  · intro k event hfind hk hlt
    subst hk
    cases inputs with
    | nil => simp at hlt
    | cons a as =>
      simp [requestSwishPayment, hfind, hlt]
      intro hge
      simp only [List.length_cons] at hlt
      exact absurd hlt (by omega)

/-- C4 witness: injecting a failure on the last (second) participant of a
two-participant signup leaves zero participants persisted. -/
theorem signup_all_or_nothing_witness :
    requestSwishPayment emptyDbWithEvent "ev1" wInputs wMeta (some 1) none
      "pid1" 0 = (emptyDbWithEvent, .error .internalServerError) :=
  (signup_all_or_nothing emptyDbWithEvent "ev1" wInputs wMeta (some 1) none
    "pid1" 0 (by decide)).2 1 fixEvent (by rfl) rfl (by decide)

/-- C8: if the event does not exist, `requestSwishPayment` raises the
"Event not found" error with the database untouched (no participant row is
created); if the event exists and the outbound gateway call fails after the
participant transaction committed, the created participant rows remain
persisted (and no payment row is added) while the caller receives an internal
error carrying no payment id. -/
theorem signup_error_paths (db : DB) (eventId : String)
    (inputs : List ParticipantInput) (meta : List (String × String))
    (failAt : Option Nat) (gatewayLocation : Option String)
    (paymentRowId : String) (now : Int) :
    (db.events.find? (fun e => e.id == eventId) = none →
      requestSwishPayment db eventId inputs meta failAt gatewayLocation
        paymentRowId now = (db, .error (.badRequest "Event not found"))) ∧
    (∀ event payer, db.events.find? (fun e => e.id == eventId) = some event →
      inputs.head? = some payer →
      requestSwishPayment db eventId inputs meta none none paymentRowId now
        = ({ db with participants :=
              db.participants ++ createParticipantRows inputs meta event },
            .error .internalServerError)) := by
  constructor
  · intro h
    simp [requestSwishPayment, h]
  · intro event payer hfind hhead
    simp [requestSwishPayment, hfind, hhead]

/-- C8 witness: a missing event id is rejected before any row is created, and
a gateway failure for an existing event leaves the two committed participant
rows in place while returning an internal error. -/
theorem signup_error_paths_witness :
    requestSwishPayment emptyDbWithEvent "missing" wInputs wMeta none none
        "pid2" 0 = (emptyDbWithEvent, .error (.badRequest "Event not found")) ∧
    requestSwishPayment emptyDbWithEvent "ev1" wInputs wMeta none none "pid2" 0
      = ({ emptyDbWithEvent with participants :=
            emptyDbWithEvent.participants
              ++ createParticipantRows wInputs wMeta fixEvent },
          .error .internalServerError) :=
  ⟨(signup_error_paths emptyDbWithEvent "missing" wInputs wMeta none none
      "pid2" 0).1 (by rfl),
    (signup_error_paths emptyDbWithEvent "ev1" wInputs wMeta none none
      "pid2" 0).2 fixEvent wInputA (by rfl) (by rfl)⟩

/-- C2 (amended): the capacity read model counts, per bus, exactly the
participants having AT LEAST ONE payment row with status PAID and NO refund
row with status PAID (not "most-recent row" as the claim stated; see the
counterexample); on the spec's concrete scenario — one bus of capacity 10,
7 PAID participants and 2 PAID-then-refunded participants — `getAwayGames`
reports maxSeats = 10 and bookedSeats = 7. -/
theorem capacity_counts_paid_not_refunded :
    (∀ (db : DB) (b : Bus) (p : Participant),
      p ∈ paidPassengers db b ↔
        (p ∈ db.participants ∧ p.busId = b.id ∧
          (∃ sp ∈ swishPaymentsOf db p, sp.status = SwishPaymentStatus.PAID) ∧
          ¬ ∃ rf ∈ swishRefundsOf db p, rf.status = SwishRefundStatus.PAID)) ∧
    getAwayGames scnDb 0
      = [{ event := scnEvent, maxSeats := 10, bookedSeats := 7 }] := by
  constructor
  · intro db b p
    simp [paidPassengers, List.mem_filter, hasPaidPayment, hasPaidRefund,
      List.any_eq_true]
  · decide

/-- C2 counterexample: a participant whose payment history is [PAID, DECLINED]
has a most-recent payment row that is NOT PAID, so the claim's "exactly those
participants whose most-recent payment request status is PAID" predicts a
count of 0, yet the code's filter (some payment PAID, no refund PAID) counts
this participant: the two predicates disagree on this database. -/
theorem capacity_most_recent_mismatch :
    paidPassengerCount c2Db c2Bus = 1 ∧
    (c2Db.participants.filter
      (fun p => p.busId == c2Bus.id && specCountsPassenger c2Db p)).length = 0 :=
  ⟨by decide, by decide⟩

end VssEvent
